import Mathlib

/-!
Shallow embedding of `custom_components/ecoforest_ecogeo/overrides/api.py`:
the register/coil codec, the static request/mapping tables, the alarm scan,
the model-name decoder, the snapshot builder and the write planners.

Conventions of the embedding:
* Python ints are `ℤ`/`ℕ`; Python floats are idealized as exact rationals `ℚ`
  (every arithmetic step of the source on the values considered here is exact
  in double precision, so the idealization agrees with the source).
* Raw wire values are `String`s of the response, as in the source.
* Fallible Python code (KeyError / ValueError / IndexError / raise) is
  modelled with `Option`/`Except`.
* The device state handed to the decoding code is a partial map
  `DataTypes → ℕ → Option String`; `none` models an absent dictionary key.
-/

namespace EcoGeo

/-- `DataTypes` class of the source (`Register = 1`, `Coil = 2`). -/
inductive DataTypes where
  | Register
  | Coil
deriving DecidableEq

def MODEL_ADDRESS : ℕ := 5323

def MODEL_LENGTH : ℕ := 6

def OP_TYPE_GET_SWITCH : ℕ := 2001

def OP_TYPE_SET_SWITCH : ℕ := 2011

def OP_TYPE_GET_REGISTER : ℕ := 2002

def OP_TYPE_SET_REGISTER : ℕ := 2012

/-- One batched read of the `REQUESTS` table: start address and length. -/
structure ReadRequest where
  address : ℕ
  length : ℕ
deriving DecidableEq

/-- The curated read ranges of the source, keyed by data type. -/
def REQUESTS : DataTypes → List ReadRequest
  | .Coil => [⟨1, 41⟩, ⟨83, 1⟩, ⟨212, 15⟩]
  | .Register => [⟨11, 31⟩, ⟨MODEL_ADDRESS, MODEL_LENGTH⟩]

/-- One entry of the `MAPPING` table.  `address` is `none` for the one
"custom" field (the source dictionary simply has no `"address"` key there);
`min`/`max`/`step` are the descriptive bounds of number entities.  The
`value_fn` of the single custom field is hard-wired in the snapshot builder
below (the source stores a lambda calling `EcoGeoApi.get_alarm`). -/
structure FieldDef where
  data_type : DataTypes
  type : String
  address : Option ℕ
  entity_type : String
  is_number : Bool
  min : Option ℚ
  max : Option ℚ
  step : Option ℚ
deriving DecidableEq

/-- The `MAPPING` table of the source, in its (insertion-ordered) dict order. -/
def MAPPING : List (String × FieldDef) :=
  [ ("t_dhw", ⟨.Register, "float", some 11, "temperature", false, none, none, none⟩),
    ("t_outdoor", ⟨.Register, "float", some 20, "temperature", false, none, none, none⟩),
    ("button_reset_alarms", ⟨.Coil, "boolean", some 83, "button", false, none, none, none⟩),
    ("switch_dhw", ⟨.Coil, "boolean", some 213, "switch", false, none, none, none⟩),
    ("number_dhw_setpoint", ⟨.Register, "float", some 40, "temperature", true, some 0, some 65, some (1/10)⟩),
    ("number_dhw_dt_start", ⟨.Register, "float", some 41, "temperature", true, some 2, some 25, some (1/10)⟩),
    ("alarm", ⟨.Coil, "custom", none, "enum", false, none, none, none⟩) ]

/-- The fixed, priority-ordered alarm coil table of `get_alarm`. -/
def alarm_registers : List ℕ :=
  [1, 2, 3, 7, 8, 9, 10, 11, 12, 13, 14, 15, 16, 17, 18, 19, 20, 21,
   24, 25, 26, 33, 34, 36, 37, 38, 39, 40, 41,
   212, 213, 214, 215, 216, 217, 218, 219, 220, 221, 222, 223, 224, 225, 226]

/-! ## Value codec -/

/-- Value of one hex digit, both cases accepted as by Python `int(_, 16)`. -/
def hexDigitVal (c : Char) : Option ℕ :=
  if '0' ≤ c ∧ c ≤ '9' then some (c.toNat - '0'.toNat)
  else if 'a' ≤ c ∧ c ≤ 'f' then some (c.toNat - 'a'.toNat + 10)
  else if 'A' ≤ c ∧ c ≤ 'F' then some (c.toNat - 'A'.toNat + 10)
  else none

/-- Accumulator loop of the hex parse. -/
def hexGo : ℕ → List Char → Option ℕ
  | acc, [] => some acc
  | acc, c :: cs =>
    match hexDigitVal c with
    | none => none
    | some d => hexGo (16 * acc + d) cs

/-- Python `int(s, 16)` on a plain digit string (the raw wire values handled
here carry no sign, prefix or underscores): `none` models `ValueError`. -/
def hexParse (s : String) : Option ℕ :=
  match s.data with
  | [] => none
  | l => hexGo 0 l

/-- Decimal parse used by `parse_ecoforest_bool` (Python `int(s)`). -/
def decDigitVal (c : Char) : Option ℕ :=
  if '0' ≤ c ∧ c ≤ '9' then some (c.toNat - '0'.toNat) else none

/-- Accumulator loop of the decimal parse. -/
def decGo : ℕ → List Char → Option ℕ
  | acc, [] => some acc
  | acc, c :: cs =>
    match decDigitVal c with
    | none => none
    | some d => decGo (10 * acc + d) cs

/-- Python `int(s)` on a plain digit string. -/
def decParse (s : String) : Option ℕ :=
  match s.data with
  | [] => none
  | l => decGo 0 l

/-- `parse_ecoforest_int`: parse as unsigned hex, then subtract 65536 from
values strictly above 32768 (the asymmetric signed rule of the source). -/
def parse_ecoforest_int (value : String) : Option ℤ :=
  (hexParse value).map (fun result : ℕ =>
    if (result : ℤ) ≤ 32768 then (result : ℤ) else (result : ℤ) - 65536)

/-- `parse_ecoforest_float`: the signed parse divided by 10. -/
def parse_ecoforest_float (value : String) : Option ℚ :=
  (parse_ecoforest_int value).map (fun v : ℤ => (v : ℚ) / 10)

/-- `parse_ecoforest_bool`: `bool(int(value))`. -/
def parse_ecoforest_bool (value : String) : Option Bool :=
  (decParse value).map (fun n => n ≠ 0)

/-- Python `int()` truncation of a rational toward zero. -/
def ratTrunc (q : ℚ) : ℤ :=
  if q < 0 then ⌈q⌉ else ⌊q⌋

/-- Lowercase hex digit character, as produced by Python `hex`. -/
def hexChar (n : ℕ) : Char :=
  if n < 10 then Char.ofNat ('0'.toNat + n) else Char.ofNat ('a'.toNat + (n - 10))

/-- Fuelled little-endian base-16 digit list (structural recursion so that it
evaluates in the kernel); `hexDigitsAux n n` equals `Nat.digits 16 n`. -/
def hexDigitsAux : ℕ → ℕ → List ℕ
  | _, 0 => []
  | 0, _ + 1 => []
  | fuel + 1, n + 1 => ((n + 1) % 16) :: hexDigitsAux fuel ((n + 1) / 16)

/-- Little-endian base-16 digits of `n` (empty for 0). -/
def hexDigitsRev (n : ℕ) : List ℕ := hexDigitsAux n n

/-- Digit characters of Python `hex(n)` after the `"0x"` prefix, `n ≥ 0`:
most-significant first, lowercase, `"0"` for zero. -/
def pyHexBody (n : ℕ) : List Char :=
  if n = 0 then ['0'] else (hexDigitsRev n).reverse.map hexChar

/-- Characters of Python `hex(v)[2:]`.  For `v < 0`, `hex(v)` is
`"-0x…"`, so dropping two characters leaves a leading `'x'`. -/
def pyHexDrop2 (v : ℤ) : List Char :=
  if v < 0 then 'x' :: pyHexBody v.natAbs else pyHexBody v.natAbs

/-- Python `l[-n:]` on a character list of length at least `n`. -/
def lastN (n : ℕ) (l : List Char) : List Char :=
  l.drop (l.length - n)

/-- `convert_to_ecoforest_int`: multiply by 10, truncate toward zero, add
65536 once if negative, then `("0000" + hex(value)[2:])[-4:]`. -/
def convert_to_ecoforest_int (value : ℚ) : String :=
  let v := ratTrunc (value * 10)
  let v2 := if v < 0 then v + 65536 else v
  String.mk (lastN 4 (['0', '0', '0', '0'] ++ pyHexDrop2 v2))

/-! ## Alarm scan -/

/-- Loop of `get_alarm`: first listed coil whose raw value is not `"0"`;
a missing address is a `KeyError` (`none`); exhaustion yields `some 0`. -/
def get_alarm_go (coil : ℕ → Option String) : List ℕ → Option ℕ
  | [] => some 0
  | a :: rest =>
    match coil a with
    | none => none
    | some s => if s = "0" then get_alarm_go coil rest else some a

/-- `get_alarm` of the source, over the coil part of the polled state. -/
def get_alarm (coil : ℕ → Option String) : Option ℕ :=
  get_alarm_go coil alarm_registers

/-! ## Model-name decoder -/

/-- `model_dictionary`: `["--"] + [*string.digits] + [*string.ascii_uppercase]`. -/
def model_dictionary : List String :=
  ["--",
   "0", "1", "2", "3", "4", "5", "6", "7", "8", "9",
   "A", "B", "C", "D", "E", "F", "G", "H", "I", "J", "K", "L", "M",
   "N", "O", "P", "Q", "R", "S", "T", "U", "V", "W", "X", "Y", "Z"]

/-- Python list indexing `l[i]`, including negative indices from the end;
`none` models `IndexError`. -/
def pyIndex (l : List String) (i : ℤ) : Option String :=
  let j := if i < 0 then (l.length : ℤ) + i else i
  if 0 ≤ j then l.get? j.toNat else none

/-- The six model register addresses, `range(MODEL_ADDRESS, MODEL_ADDRESS + MODEL_LENGTH)`. -/
def model_addresses : List ℕ := List.range' MODEL_ADDRESS MODEL_LENGTH

/-- Loop of `parse_model_name`: look the register up, parse it, index the
alphabet with the signed value, append the symbol. -/
def parse_model_go (st : DataTypes → ℕ → Option String) : List ℕ → String → Option String
  | [], acc => some acc
  | a :: rest, acc =>
    match st DataTypes.Register a with
    | none => none
    | some raw =>
      match parse_ecoforest_int raw with
      | none => none
      | some v =>
        match pyIndex model_dictionary v with
        | none => none
        | some sym => parse_model_go st rest (acc ++ sym)

/-- `parse_model_name` of the source. -/
def parse_model_name (st : DataTypes → ℕ → Option String) : Option String :=
  parse_model_go st model_addresses ""

/-! ## Snapshot builder (`get`, decoding part) -/

/-- A decoded `device_info` value: Python int, float (exact rational),
bool, or `None` (the "no value" sentinel substitute). -/
inductive Value where
  | vi : ℤ → Value
  | vf : ℚ → Value
  | vb : Bool → Value
  | vnone : Value
deriving DecidableEq

/-- Python numeric equality of a decoded value against a float literal
(`True == 1`, ints compare with floats; `None` never compares equal). -/
def valEqRat (v : Value) (q : ℚ) : Prop :=
  match v with
  | .vi n => (n : ℚ) = q
  | .vf x => x = q
  | .vb b => (if b then (1 : ℚ) else 0) = q
  | .vnone => False

instance (v : Value) (q : ℚ) : Decidable (valEqRat v q) := by
  unfold valEqRat
  cases v <;> infer_instance

/-- Python dict assignment `d[k] = v` on an insertion-ordered association
list: replaces in place, appends when the key is new. -/
def setVal (l : List (String × Value)) (k : String) (v : Value) : List (String × Value) :=
  match l with
  | [] => [(k, v)]
  | (k1, v1) :: rest =>
    if k1 = k then (k1, v) :: rest else (k1, v1) :: setVal rest k v

/-- Decode a single non-custom field as in the first loop of `get`: fetch
the raw value at `state[data_type][address]` (a `KeyError` when either key
is missing) and run the codec selected by the field's `type`. -/
def decode_direct (st : DataTypes → ℕ → Option String) (d : FieldDef) : Option Value :=
  if d.type = "int" then
    (d.address.bind (fun a => st d.data_type a)).bind
      (fun raw => (parse_ecoforest_int raw).map Value.vi)
  else if d.type = "float" then
    (d.address.bind (fun a => st d.data_type a)).bind
      (fun raw => (parse_ecoforest_float raw).map Value.vf)
  else
    (d.address.bind (fun a => st d.data_type a)).bind
      (fun raw => (parse_ecoforest_bool raw).map Value.vb)

/-- First decoding loop of `get` (lines 112–126): decode every non-custom
field; `custom` fields and fields of unknown `type` are skipped (the latter
with only a logged error); a decode failure aborts the whole poll. -/
def pass1 (st : DataTypes → ℕ → Option String) : List (String × FieldDef) → Option (List (String × Value))
  | [] => some []
  | (name, d) :: rest =>
    if d.type = "int" ∨ d.type = "float" ∨ d.type = "boolean" then
      (decode_direct st d).bind
        (fun v => (pass1 st rest).map (fun r => (name, v) :: r))
    else
      pass1 st rest

/-- Sentinel step of the second loop of `get`: for a `temperature` field,
look its decoded value up (a `KeyError` when absent) and replace it by
`None` when it compares equal to `-999.9`. -/
def subst_temp (info : List (String × Value)) (name : String) (d : FieldDef) :
    Option (List (String × Value)) :=
  if d.entity_type = "temperature" then
    (List.lookup name info).map
      (fun v => if valEqRat v (-9999 / 10) then setVal info name Value.vnone else info)
  else some info

/-- Second loop of `get` (lines 128–135): the sentinel substitution, then
the one custom field (`alarm`, whose `value_fn` is `get_alarm` over the raw
coil state). -/
def pass2 (st : DataTypes → ℕ → Option String) (info : List (String × Value)) :
    List (String × FieldDef) → Option (List (String × Value))
  | [] => some info
  | (name, d) :: rest =>
    (subst_temp info name d).bind (fun info1 =>
      if d.type = "custom" then
        (get_alarm (st DataTypes.Coil)).bind
          (fun a => pass2 st (setVal info1 name (Value.vi (a : ℤ))) rest)
      else
        pass2 st info1 rest)

/-- Decoding part of `get`: both loops over `MAPPING` applied to a polled
raw state. -/
def build_device_info (st : DataTypes → ℕ → Option String) : Option (List (String × Value)) :=
  match pass1 st MAPPING with
  | none => none
  | some info => pass2 st info MAPPING

/-! ## Write planners -/

/-- What the write entry points can raise before reaching the transport. -/
inductive WriteError where
  | unknownField
  | missingAddressKey
deriving DecidableEq

/-- The single write request a write entry point hands to the transport. -/
structure WriteRequest where
  op : ℕ
  dir : ℕ
  num : ℕ
  payload : String
deriving DecidableEq

/-- `turn_switch` up to its transport call: the guard only checks that the
name is a `MAPPING` key (`unknown switch` otherwise); then the request is
built from the field's `"address"` entry, a `KeyError` when that key is
absent.  An `error` result means no transport call is made. -/
def turn_switch_plan (name : String) (onVal : Bool) : Except WriteError WriteRequest :=
  match List.lookup name MAPPING with
  | none => .error .unknownField
  | some d =>
    match d.address with
    | none => .error .missingAddressKey
    | some a => .ok ⟨OP_TYPE_SET_SWITCH, a, 1, if onVal then "1" else "0"⟩

/-- `set_numeric_value` up to its transport call: same guard over the
`MAPPING` keys (`unknown register`), the value encoded first via
`convert_to_ecoforest_int`, then the `"address"` lookup (`KeyError` when
absent, before any transport call). -/
def set_numeric_value_plan (name : String) (value : ℚ) : Except WriteError WriteRequest :=
  match List.lookup name MAPPING with
  | none => .error .unknownField
  | some d =>
    match d.address with
    | none => .error .missingAddressKey
    | some a => .ok ⟨OP_TYPE_SET_REGISTER, a, 1, convert_to_ecoforest_int value⟩

deriving instance DecidableEq for Except

/-- A field address is covered by the curated read ranges of its data type. -/
def inRequests (dt : DataTypes) (a : ℕ) : Prop :=
  ∃ r ∈ REQUESTS dt, r.address ≤ a ∧ a < r.address + r.length

/-- A lowercase hexadecimal digit character. -/
def isLowerHex (c : Char) : Prop :=
  ('0' ≤ c ∧ c ≤ '9') ∨ ('a' ≤ c ∧ c ≤ 'f')

instance (c : Char) : Decidable (isLowerHex c) := by
  unfold isLowerHex
  infer_instance

/-! ## Concrete device states used in witnesses and counterexamples -/

/-- A coil space with exactly the alarm coils 3 and 18 active. -/
def coilTwoActive : ℕ → Option String :=
  fun a => some (if a = 3 ∨ a = 18 then "1" else "0")

/-- A state answering `"0000"` at every address of both namespaces. -/
def allZeroState : DataTypes → ℕ → Option String :=
  fun _ _ => some "0000"

/-- A state answering `"0"` everywhere (all coils inactive). -/
def zeroCoilState : DataTypes → ℕ → Option String :=
  fun _ _ => some "0"

/-- A register space whose model block decodes to indices `-1,1,1,1,1,1`. -/
def modelNegIndexState : DataTypes → ℕ → Option String :=
  fun _ a => if a = 5323 then some "ffff" else some "0001"

/-- A register space whose model block holds the values `[0,10,20,30,1,2]`. -/
def modelExampleState : DataTypes → ℕ → Option String :=
  fun _ a =>
    if a = 5323 then some "0000"
    else if a = 5324 then some "000a"
    else if a = 5325 then some "0014"
    else if a = 5326 then some "001e"
    else if a = 5327 then some "0001"
    else some "0002"

/-- A decoded `device_info` in which `t_outdoor` carries the sentinel
`-999.9` and `t_dhw` carries `-999.8`. -/
def sentinelInfo : List (String × Value) :=
  [("t_dhw", Value.vf (-9998 / 10)), ("t_outdoor", Value.vf (-9999 / 10)),
   ("button_reset_alarms", Value.vb false), ("switch_dhw", Value.vb false),
   ("number_dhw_setpoint", Value.vf 0), ("number_dhw_dt_start", Value.vf 0)]

/-- `sentinelInfo` after the second loop of `get` under `zeroCoilState`. -/
def sentinelFinal : List (String × Value) :=
  [("t_dhw", Value.vf (-9998 / 10)), ("t_outdoor", Value.vnone),
   ("button_reset_alarms", Value.vb false), ("switch_dhw", Value.vb false),
   ("number_dhw_setpoint", Value.vf 0), ("number_dhw_dt_start", Value.vf 0),
   ("alarm", Value.vi 0)]

/-- A mapped-field predicate: the field's address, when it has one, lies in
one of the curated read ranges of its data type. -/
def addrCovered (d : FieldDef) : Prop :=
  match d.address with
  | none => True
  | some a => inRequests d.data_type a

instance (dt : DataTypes) (a : ℕ) : Decidable (inRequests dt a) := by
  unfold inRequests
  infer_instance

instance (d : FieldDef) : Decidable (addrCovered d) := by
  unfold addrCovered
  rcases d.address with _ | a <;> infer_instance

/-! ## Helper lemmas -/

theorem ratTrunc_intCast (n : ℤ) : ratTrunc ((n : ℚ)) = n := by
  unfold ratTrunc
  split <;> simp

/-- Unfolding of the encoder at an exact value of the form `v / 10`. -/
theorem convert_tenths (v : ℤ) : convert_to_ecoforest_int ((v : ℚ) / 10) =
    String.mk (lastN 4 (['0', '0', '0', '0'] ++ pyHexDrop2 (if v < 0 then v + 65536 else v))) := by
  have h10 : ((v : ℚ) / 10) * 10 = ((v : ℤ) : ℚ) := div_mul_cancel₀ _ (by norm_num)
  unfold convert_to_ecoforest_int
  rw [h10, ratTrunc_intCast]

theorem hexDigitsAux_eq_digits : ∀ fuel n, n ≤ fuel → hexDigitsAux fuel n = Nat.digits 16 n := by
  intro fuel
  induction fuel with
  | zero => intro n hn; interval_cases n; simp [hexDigitsAux]
  | succ f ih =>
    intro n hn
    match n with
    | 0 => simp [hexDigitsAux]
    | m + 1 =>
      rw [hexDigitsAux, Nat.digits_def' (by norm_num : (1:ℕ) < 16) (Nat.succ_pos m), ih]
      have := Nat.div_lt_self (Nat.succ_pos m) (by norm_num : (1:ℕ) < 16)
      omega

theorem hexDigitsRev_eq (n : ℕ) : hexDigitsRev n = Nat.digits 16 n :=
  hexDigitsAux_eq_digits n n le_rfl

theorem hexDigitVal_hexChar (d : ℕ) (hd : d < 16) : hexDigitVal (hexChar d) = some d := by
  interval_cases d <;> decide

theorem hexGo_map_hexChar (L : List ℕ) (hL : ∀ d ∈ L, d < 16) (acc : ℕ) :
    hexGo acc (L.map hexChar) = some (L.foldl (fun a d => 16 * a + d) acc) := by
  induction L generalizing acc with
  | nil => rfl
  | cons d T ih =>
    have hd : d < 16 := hL d (List.mem_cons_self d T)
    rw [List.map_cons, hexGo, hexDigitVal_hexChar d hd, List.foldl_cons]
    exact ih (fun x hx => hL x (List.mem_cons_of_mem d hx)) (16 * acc + d)

theorem foldr_base16 (L : List ℕ) (acc : ℕ) :
    L.foldr (fun d a => 16 * a + d) acc = acc * 16 ^ L.length + Nat.ofDigits 16 L := by
  induction L with
  | nil => simp [Nat.ofDigits]
  | cons d T ih =>
    rw [List.foldr_cons, ih, Nat.ofDigits_cons, List.length_cons]
    ring

theorem hexGo_replicate_zero (k : ℕ) (l : List Char) :
    hexGo 0 (List.replicate k '0' ++ l) = hexGo 0 l := by
  induction k with
  | zero => rfl
  | succ m ih =>
    rw [List.replicate_succ, List.cons_append, hexGo]
    norm_num [hexDigitVal]
    exact ih

theorem hexDigitsRev_len_le (n : ℕ) (hn : n < 65536) : (hexDigitsRev n).length ≤ 4 := by
  rw [hexDigitsRev_eq]
  have h1 : (Nat.digits 16 n).length ≤ (Nat.digits 16 65535).length :=
    Nat.le_digits_len_le 16 n 65535 (by omega)
  have h2 : Nat.digits 16 65535 = [15, 15, 15, 15] := by
    rw [← hexDigitsRev_eq]; decide
  rw [h2] at h1
  simpa using h1

theorem lastN_pad (l : List Char) (hl : l.length ≤ 4) :
    lastN 4 (['0', '0', '0', '0'] ++ l) = List.replicate (4 - l.length) '0' ++ l := by
  have h4 : (['0', '0', '0', '0'] : List Char) = List.replicate 4 '0' := by decide
  have hz : l.length - 4 = 0 := by omega
  rw [lastN, List.length_append, h4, List.length_replicate, Nat.add_sub_cancel_left,
    List.drop_append_eq_append_drop, List.drop_replicate, List.length_replicate, hz,
    List.drop_zero]

/-- Round trip of the raw 16-bit layer: the padded-and-truncated lowercase
hex rendering of `n < 65536` parses back to `n`. -/
theorem hexParse_padded (n : ℕ) (hn : n < 65536) :
    hexParse (String.mk (lastN 4 (['0', '0', '0', '0'] ++ pyHexBody n))) = some n := by
  by_cases h0 : n = 0
  · subst h0; decide
  · have hbody : pyHexBody n = (hexDigitsRev n).reverse.map hexChar := by
      rw [pyHexBody, if_neg h0]
    have hlen : ((hexDigitsRev n).reverse.map hexChar).length ≤ 4 := by
      simpa using hexDigitsRev_len_le n hn
    rw [hbody, lastN_pad _ hlen]
    have hne : (hexDigitsRev n).reverse.map hexChar ≠ [] := by
      simp [hexDigitsRev_eq, Nat.digits_ne_nil_iff_ne_zero, h0]
    have hgo : hexGo 0 (List.replicate (4 - ((hexDigitsRev n).reverse.map hexChar).length) '0'
        ++ (hexDigitsRev n).reverse.map hexChar) = some n := by
      rw [hexGo_replicate_zero]
      rw [hexGo_map_hexChar ((hexDigitsRev n).reverse)
        (by intro d hd
            exact Nat.digits_lt_base (by norm_num) (by rwa [← hexDigitsRev_eq, ← List.mem_reverse])) 0]
      rw [List.foldl_reverse]
      have := foldr_base16 (hexDigitsRev n) 0
      simp only [hexDigitsRev_eq] at this ⊢
      rw [show (fun x y => 16 * y + x) = (fun d a => 16 * a + d) from rfl, this,
        Nat.ofDigits_digits]
      simp
    rcases hcons : List.replicate (4 - ((hexDigitsRev n).reverse.map hexChar).length) '0'
        ++ (hexDigitsRev n).reverse.map hexChar with _ | ⟨c, cs⟩
    · exact absurd (List.append_eq_nil.mp hcons).2 hne
    · rw [hcons] at hgo
      simpa [hexParse] using hgo

theorem get_alarm_go_spec (coil : ℕ → Option String) :
    ∀ L : List ℕ, (∀ a ∈ L, (coil a).isSome) →
      get_alarm_go coil L = some ((L.find? (fun a => coil a != some "0")).getD 0) := by
  intro L
  induction L with
  | nil => intro _; rfl
  | cons a T ih =>
    intro h
    obtain ⟨s, hs⟩ := Option.isSome_iff_exists.mp (h a (List.mem_cons_self a T))
    by_cases h0 : s = "0"
    · subst h0
      have hp : ((some "0" != some "0") = false) := rfl
      simp only [get_alarm_go, hs, List.find?_cons, hp, if_pos]
      exact ih (fun x hx => h x (List.mem_cons_of_mem a hx))
    · have hp : ((some s != some "0") = true) := by simpa using h0
      simp only [get_alarm_go, hs, List.find?_cons, hp, if_neg h0]
      rfl

theorem lookup_setVal_self (l : List (String × Value)) (k : String) (v : Value) :
    List.lookup k (setVal l k v) = some v := by
  induction l with
  | nil => simp [setVal, List.lookup_cons]
  | cons p rest ih =>
    obtain ⟨k1, v1⟩ := p
    rw [setVal]
    by_cases hk : k1 = k
    · subst hk
      simp [List.lookup_cons]
    · rw [if_neg hk]
      rw [List.lookup_cons, beq_false_of_ne (Ne.symm hk)]
      exact ih

theorem lookup_setVal_ne (l : List (String × Value)) (k k' : String) (v : Value)
    (h : k' ≠ k) : List.lookup k' (setVal l k v) = List.lookup k' l := by
  induction l with
  | nil => simp [setVal, List.lookup_cons, beq_false_of_ne h]
  | cons p rest ih =>
    obtain ⟨k1, v1⟩ := p
    rw [setVal]
    by_cases hk : k1 = k
    · subst hk
      rw [if_pos rfl, List.lookup_cons, List.lookup_cons, beq_false_of_ne h]
    · rw [if_neg hk]
      rw [List.lookup_cons, List.lookup_cons]
      by_cases hk2 : k' = k1
      · rw [beq_iff_eq.mpr hk2]
      · rw [beq_false_of_ne hk2]
        exact ih

theorem pass2_append (st : DataTypes → ℕ → Option String) :
    ∀ (M1 M2 : List (String × FieldDef)) (info : List (String × Value)),
      pass2 st info (M1 ++ M2) =
        (pass2 st info M1).bind (fun mid => pass2 st mid M2) := by
  intro M1
  induction M1 with
  | nil => intro M2 info; rfl
  | cons p M1t ih =>
    intro M2 info
    obtain ⟨name, d⟩ := p
    rw [List.cons_append, pass2, pass2, Option.bind_assoc]
    congr 1
    funext info1
    by_cases hc : d.type = "custom"
    · rw [if_pos hc, if_pos hc, Option.bind_assoc]
      congr 1
      funext a
      exact ih M2 _
    · rw [if_neg hc, if_neg hc]
      exact ih M2 _

/-- Keys absent from a mapping segment are untouched by the second loop. -/
theorem pass2_preserves (st : DataTypes → ℕ → Option String) :
    ∀ (M : List (String × FieldDef)) (info final : List (String × Value)) (name : String),
      pass2 st info M = some final →
      (∀ p ∈ M, p.1 ≠ name) →
      List.lookup name final = List.lookup name info := by
  intro M
  induction M with
  | nil =>
    intro info final name h _
    rw [pass2] at h
    cases h
    rfl
  | cons p Mt ih =>
    intro info final name h hk
    obtain ⟨k, d⟩ := p
    have hkn : k ≠ name := hk (k, d) (List.mem_cons_self _ _)
    rw [pass2] at h
    rcases hsub : subst_temp info k d with _ | info1
    · rw [hsub] at h; cases h
    · rw [hsub, Option.some_bind] at h
      have hinfo1 : List.lookup name info1 = List.lookup name info := by
        rw [subst_temp] at hsub
        by_cases ht : d.entity_type = "temperature"
        · rw [if_pos ht] at hsub
          rcases hlk : List.lookup k info with _ | v
          · rw [hlk] at hsub; cases hsub
          · rw [hlk, Option.map_some'] at hsub
            cases hsub
            by_cases hq : valEqRat v (-9999 / 10)
            · rw [if_pos hq]
              exact lookup_setVal_ne info k name Value.vnone (Ne.symm hkn)
            · rw [if_neg hq]
        · rw [if_neg ht] at hsub
          cases hsub
          rfl
      by_cases hc : d.type = "custom"
      · rw [if_pos hc] at h
        rcases hal : get_alarm (st DataTypes.Coil) with _ | a
        · rw [hal] at h; cases h
        · rw [hal, Option.some_bind] at h
          have := ih _ _ name h (fun q hq => hk q (List.mem_cons_of_mem _ hq))
          rw [this, lookup_setVal_ne _ k name _ (Ne.symm hkn), hinfo1]
      · rw [if_neg hc] at h
        have := ih _ _ name h (fun q hq => hk q (List.mem_cons_of_mem _ hq))
        rw [this, hinfo1]

theorem pass2_sentinel (st : DataTypes → ℕ → Option String)
    (M2 : List (String × FieldDef)) (mid final : List (String × Value))
    (name : String) (d : FieldDef) (q : ℚ)
    (h : pass2 st mid ((name, d) :: M2) = some final)
    (hM2 : ∀ p ∈ M2, p.1 ≠ name)
    (ht : d.entity_type = "temperature")
    (hc : d.type ≠ "custom")
    (hv : List.lookup name mid = some (Value.vf q)) :
    List.lookup name final =
      (if q = -9999 / 10 then some Value.vnone else some (Value.vf q)) := by
  rw [pass2, subst_temp, if_pos ht, hv, Option.map_some', Option.some_bind, if_neg hc] at h
  simp only [show valEqRat (Value.vf q) (-9999 / 10) = (q = -9999 / 10) from rfl] at h
  by_cases hq : q = -9999 / 10
  · rw [if_pos hq] at h
    rw [if_pos hq, pass2_preserves st M2 _ final name h hM2, lookup_setVal_self]
  · rw [if_neg hq] at h
    rw [if_neg hq, pass2_preserves st M2 _ final name h hM2, hv]

theorem get?_isSome_iff (l : List String) (n : ℕ) : (l.get? n).isSome ↔ n < l.length := by
  rw [Option.isSome_iff_exists]
  constructor
  · rintro ⟨a, ha⟩
    by_contra hc
    rw [List.get?_eq_none.mpr (le_of_not_lt hc)] at ha
    exact Option.noConfusion ha
  · intro h
    exact ⟨l.get ⟨n, h⟩, List.get?_eq_get h⟩

theorem pyIndex_isSome (l : List String) (i : ℤ) :
    (pyIndex l i).isSome ↔ (-(l.length : ℤ) ≤ i ∧ i < (l.length : ℤ)) := by
  unfold pyIndex
  by_cases hi : i < 0
  · rw [if_pos hi]
    by_cases hj : 0 ≤ (l.length : ℤ) + i
    · rw [if_pos hj, get?_isSome_iff]
      have ht : (((l.length : ℤ) + i).toNat : ℤ) = (l.length : ℤ) + i := Int.toNat_of_nonneg hj
      constructor
      · intro hlt
        constructor <;> omega
      · intro hb
        omega
    · rw [if_neg hj]
      simp only [Option.isSome_none, Bool.false_eq_true, false_iff]
      omega
  · rw [if_neg hi]
    rw [if_pos (le_of_not_lt hi), get?_isSome_iff]
    have ht : ((i.toNat : ℤ)) = i := Int.toNat_of_nonneg (le_of_not_lt hi)
    constructor
    · intro hlt
      constructor <;> omega
    · intro hb
      omega

theorem parse_model_go_isSome (st : DataTypes → ℕ → Option String) :
    ∀ (L : List ℕ) (acc : String),
      (∀ a ∈ L, ∃ s v, st DataTypes.Register a = some s ∧ parse_ecoforest_int s = some v) →
      ((parse_model_go st L acc).isSome ↔
        ∀ a ∈ L, ∀ s v, st DataTypes.Register a = some s →
          parse_ecoforest_int s = some v → (pyIndex model_dictionary v).isSome) := by
  intro L
  induction L with
  | nil =>
    intro acc h
    simp [parse_model_go]
  | cons a T ih =>
    intro acc h
    obtain ⟨s, v, hs, hv⟩ := h a (List.mem_cons_self a T)
    have htail := fun x hx => h x (List.mem_cons_of_mem a hx)
    simp only [parse_model_go, hs, hv]
    rcases hpi : pyIndex model_dictionary v with _ | sym
    · simp only [hpi]
      constructor
      · intro hS
        simp at hS
      · intro hR
        have := hR a (List.mem_cons_self a T) s v hs hv
        rw [hpi] at this
        simp at this
    · simp only [hpi]
      rw [ih (acc ++ sym) htail]
      constructor
      · intro hT b hb s' v' hs' hv'
        rcases List.mem_cons.mp hb with rfl | hbT
        · rw [hs] at hs'
          cases hs'
          rw [hv] at hv'
          cases hv'
          rw [hpi]
          rfl
        · exact hT b hbT s' v' hs' hv'
      · intro hR b hb s' v' hs' hv'
        exact hR b (List.mem_cons_of_mem a hb) s' v' hs' hv'

/-- C1, counterexample: the claim asserts that every integer in
[-32768, 32767] round-trips through the codec, naming -32768 as a boundary
value that round-trips exactly; in fact -32768 encodes to "8000", which the
asymmetric decoder reads back as +32768. -/
theorem claim1_counterexample :
    parse_ecoforest_int (convert_to_ecoforest_int ((-32768 : ℚ) / 10)) = some 32768 ∧
    (32768 : ℤ) ≠ -32768 := by
  constructor
  · have hc : ((-32768 : ℚ)) = ((-32768 : ℤ) : ℚ) := by norm_num
    rw [hc, convert_tenths]
    decide
  · decide

/-- C1, amended: for every integer v with -32767 ≤ v ≤ 32768 (the claimed
range minus its lower boundary -32768, which decodes back to +32768), the
decoder inverts the encoder on v/10 exactly. -/
theorem claim1_roundtrip (v : ℤ) (h1 : -32767 ≤ v) (h2 : v ≤ 32768) :
    parse_ecoforest_int (convert_to_ecoforest_int ((v : ℚ) / 10)) = some v := by
  simp only [convert_tenths]
  set v2 : ℤ := if v < 0 then v + 65536 else v with hv2
  have hv2b : 0 ≤ v2 ∧ v2 < 65536 := by rw [hv2]; split <;> omega
  have hdrop : pyHexDrop2 v2 = pyHexBody v2.natAbs := by
    rw [pyHexDrop2, if_neg (not_lt.mpr hv2b.1)]
  have hna : v2.natAbs < 65536 := by omega
  rw [hdrop]
  unfold parse_ecoforest_int
  rw [hexParse_padded v2.natAbs hna, Option.map_some']
  have hcast : ((v2.natAbs : ℤ)) = v2 := Int.natAbs_of_nonneg hv2b.1
  rw [hcast]
  by_cases hv : v < 0
  · rw [hv2, if_pos hv] at *
    rw [if_neg (by omega)]
    congr 1
    omega
  · rw [hv2, if_neg hv] at *
    rw [if_pos (by omega)]

/-- C1, witness: the boundary value -1 round-trips. -/
theorem claim1_witness :
    parse_ecoforest_int (convert_to_ecoforest_int (((-1 : ℤ) : ℚ) / 10)) = some (-1) :=
  claim1_roundtrip (-1) (by decide) (by decide)

/-- C2: the signed decoder returns the unsigned 16-bit parse u itself when
u ≤ 32768 and u - 65536 when u exceeds 32768 (asymmetric around 32768);
"8000" decodes to +32768 and "ffff" to -1; the float decoder is the signed
decode divided by 10, with "ffff" giving -0.1 and "0000" giving 0.0. -/
theorem claim2_signed_decode :
    (∀ s n, hexParse s = some n →
      ((n : ℤ) ≤ 32768 → parse_ecoforest_int s = some (n : ℤ)) ∧
      (32768 < (n : ℤ) → parse_ecoforest_int s = some ((n : ℤ) - 65536))) ∧
    parse_ecoforest_int "8000" = some 32768 ∧
    parse_ecoforest_int "ffff" = some (-1) ∧
    (∀ s, parse_ecoforest_float s = (parse_ecoforest_int s).map (fun v : ℤ => (v : ℚ) / 10)) ∧
    parse_ecoforest_float "ffff" = some (-1 / 10) ∧
    parse_ecoforest_float "0000" = some 0 := by
  refine ⟨?_, by decide, by decide, fun s => rfl, ?_, ?_⟩
  · intro s n h
    constructor
    · intro hb
      rw [parse_ecoforest_int, h, Option.map_some', if_pos hb]
    · intro hb
      rw [parse_ecoforest_int, h, Option.map_some', if_neg (not_le.mpr hb)]
  · rw [parse_ecoforest_float, show parse_ecoforest_int "ffff" = some (-1) from by decide,
      Option.map_some']
    norm_num
  · rw [parse_ecoforest_float, show parse_ecoforest_int "0000" = some 0 from by decide,
      Option.map_some']
    norm_num

/-- C2, witness: the decode rule applied to the concrete parse of "ffff". -/
theorem claim2_witness : parse_ecoforest_int "ffff" = some ((65535 : ℤ) - 65536) :=
  (claim2_signed_decode.1 "ffff" 65535 (by decide)).2 (by decide)

/-- C3, counterexample: the write guards only test membership in the
mapping table, not the field's kind: "t_dhw" is a Register temperature
field (not a Coil/switch field) yet turn_switch accepts it and builds a
transport write, and "switch_dhw" is a Coil boolean field (not a numeric
register field) yet set_numeric_value accepts it and builds a transport
write. -/
theorem claim3_counterexample :
    (List.lookup "t_dhw" MAPPING).map FieldDef.data_type = some DataTypes.Register ∧
    turn_switch_plan "t_dhw" true = .ok ⟨OP_TYPE_SET_SWITCH, 11, 1, "1"⟩ ∧
    (List.lookup "switch_dhw" MAPPING).map FieldDef.data_type = some DataTypes.Coil ∧
    (List.lookup "switch_dhw" MAPPING).map FieldDef.type = some "boolean" ∧
    set_numeric_value_plan "switch_dhw" 1 =
      .ok ⟨OP_TYPE_SET_REGISTER, 213, 1, convert_to_ecoforest_int 1⟩ := by
  refine ⟨by decide, by decide, by decide, by decide, rfl⟩

/-- C3, amended: both write entry points raise their unknown-field error
exactly when the name is not a key of the mapping table at all; any mapped
name (whatever its data type or wire type) passes the guard.  In the
`Except` model an error result is returned before any transport request
value is produced, so no transport call is made on failure. -/
theorem claim3_write_guard (name : String) (onVal : Bool) (value : ℚ) :
    (List.lookup name MAPPING = none →
      turn_switch_plan name onVal = .error .unknownField ∧
      set_numeric_value_plan name value = .error .unknownField) ∧
    (∀ d, List.lookup name MAPPING = some d →
      turn_switch_plan name onVal ≠ .error .unknownField ∧
      set_numeric_value_plan name value ≠ .error .unknownField) := by
  constructor
  · intro h
    constructor
    · rw [turn_switch_plan, h]
    · rw [set_numeric_value_plan, h]
  · intro d h
    constructor
    · rcases ha : d.address with _ | a <;>
        simp only [turn_switch_plan, h, ha] <;> simp
    · rcases ha : d.address with _ | a <;>
        simp only [set_numeric_value_plan, h, ha] <;> simp

/-- C3, witness: an unmapped name is rejected by both entry points. -/
theorem claim3_witness :
    turn_switch_plan "not_a_real_field" true = .error .unknownField ∧
    set_numeric_value_plan "not_a_real_field" 0 = .error .unknownField :=
  (claim3_write_guard "not_a_real_field" true 0).1 rfl

/-- C4: over any coil space holding a value for every alarm-table address,
the alarm scan returns the first address in the table's declared order
whose raw value is not "0" (any other string counts as active), and 0 when
none is active: it equals `find?` over the table with default 0. -/
theorem claim4_alarm_scan (coil : ℕ → Option String)
    (h : ∀ a ∈ alarm_registers, (coil a).isSome) :
    get_alarm coil = some ((alarm_registers.find? (fun a => coil a != some "0")).getD 0) :=
  get_alarm_go_spec coil alarm_registers h

/-- C4, witness: with coils 3 and 18 both "1" and every other coil "0",
the scan reports 3, the earlier of the two in table order. -/
theorem claim4_witness : get_alarm coilTwoActive = some 3 :=
  (claim4_alarm_scan coilTwoActive (by decide)).trans (by decide)

/-- C5, counterexample: an all-zero model block does not decode to the
6-character string "------": each index-0 symbol is the two-character
placeholder "--", so six of them concatenate to the 12-character
"------------". -/
theorem claim5_counterexample :
    parse_model_name allZeroState = some "------------" ∧
    ("------------" : String) ≠ "------" ∧
    ("------------" : String).length = 12 := by
  refine ⟨by decide, by decide, by decide⟩

/-- C5, amended: the decoder reads the six consecutive model registers,
maps each decoded value through the 37-symbol alphabet (index 0 the
placeholder "--", 1-10 the digits, 11-36 the uppercase letters) and
concatenates the symbols in address order; because the placeholder is two
characters wide, the all-zero block yields the 12-character
"------------" (six placeholders), and the block [0,10,20,30,1,2] yields
"--9JT01". -/
theorem claim5_model_decode :
    (∀ st : DataTypes → ℕ → Option String,
      (∀ a ∈ model_addresses, st DataTypes.Register a = some "0000") →
      parse_model_name st = some "------------") ∧
    (∀ st : DataTypes → ℕ → Option String,
      st DataTypes.Register 5323 = some "0000" →
      st DataTypes.Register 5324 = some "000a" →
      st DataTypes.Register 5325 = some "0014" →
      st DataTypes.Register 5326 = some "001e" →
      st DataTypes.Register 5327 = some "0001" →
      st DataTypes.Register 5328 = some "0002" →
      parse_model_name st = some "--9JT01") ∧
    model_dictionary.length = 37 := by
  refine ⟨?_, ?_, by decide⟩
  · intro st h
    have h1 := h 5323 (by decide)
    have h2 := h 5324 (by decide)
    have h3 := h 5325 (by decide)
    have h4 := h 5326 (by decide)
    have h5 := h 5327 (by decide)
    have h6 := h 5328 (by decide)
    simp only [parse_model_name, model_addresses, MODEL_ADDRESS, MODEL_LENGTH,
      List.range', parse_model_go, h1, h2, h3, h4, h5, h6,
      show parse_ecoforest_int "0000" = some 0 from by decide,
      show pyIndex model_dictionary 0 = some "--" from by decide]
    decide
  · intro st h1 h2 h3 h4 h5 h6
    simp only [parse_model_name, model_addresses, MODEL_ADDRESS, MODEL_LENGTH,
      List.range', parse_model_go, h1, h2, h3, h4, h5, h6,
      show parse_ecoforest_int "0000" = some 0 from by decide,
      show parse_ecoforest_int "000a" = some 10 from by decide,
      show parse_ecoforest_int "0014" = some 20 from by decide,
      show parse_ecoforest_int "001e" = some 30 from by decide,
      show parse_ecoforest_int "0001" = some 1 from by decide,
      show parse_ecoforest_int "0002" = some 2 from by decide,
      show pyIndex model_dictionary 0 = some "--" from by decide,
      show pyIndex model_dictionary 10 = some "9" from by decide,
      show pyIndex model_dictionary 20 = some "J" from by decide,
      show pyIndex model_dictionary 30 = some "T" from by decide,
      show pyIndex model_dictionary 1 = some "0" from by decide,
      show pyIndex model_dictionary 2 = some "1" from by decide]
    decide

/-- C5, witness: the all-zero case of the amended statement, applied to
the concrete all-zero state. -/
theorem claim5_witness : parse_model_name allZeroState = some "------------" :=
  claim5_model_decode.1 allZeroState (fun _ _ => rfl)

/-- C6: in the second loop of the snapshot build over the real mapping
table, a field mapped with entity category temperature whose decoded value
is exactly -999.9 ends as "no value" (None) in the final device info, and
any other decoded value is left unchanged. -/
theorem claim6_sentinel (st : DataTypes → ℕ → Option String)
    (info final : List (String × Value)) (name : String) (d : FieldDef) (q : ℚ)
    (h2 : pass2 st info MAPPING = some final)
    (hd : List.lookup name MAPPING = some d)
    (ht : d.entity_type = "temperature")
    (hv : List.lookup name info = some (Value.vf q)) :
    (q = -9999 / 10 → List.lookup name final = some Value.vnone) ∧
    (q ≠ -9999 / 10 → List.lookup name final = some (Value.vf q)) := by
  by_cases h1 : name = "t_dhw"
  · subst h1
    rw [show MAPPING = [] ++ ("t_dhw", ⟨.Register, "float", some 11, "temperature", false, none, none, none⟩) :: MAPPING.tail from rfl, pass2_append] at h2
    rcases hmid : pass2 st info [] with _ | mid
    · rw [hmid] at h2; cases h2
    · rw [hmid, Option.some_bind] at h2
      have hvmid : List.lookup "t_dhw" mid = some (Value.vf q) := by
        rw [pass2_preserves st [] info mid _ hmid (by decide), hv]
      have hres := pass2_sentinel st MAPPING.tail mid final "t_dhw" _ q h2 (by decide) rfl (by decide) hvmid
      constructor <;> intro hq
      · rw [hres, if_pos hq]
      · rw [hres, if_neg hq]
  · by_cases hn2 : name = "t_outdoor"
    · subst hn2
      rw [show MAPPING = MAPPING.take 1 ++ ("t_outdoor", ⟨.Register, "float", some 20, "temperature", false, none, none, none⟩) :: (MAPPING.drop 2) from rfl, pass2_append] at h2
      rcases hmid : pass2 st info (MAPPING.take 1) with _ | mid
      · rw [hmid] at h2; cases h2
      · rw [hmid, Option.some_bind] at h2
        have hvmid : List.lookup "t_outdoor" mid = some (Value.vf q) := by
          rw [pass2_preserves st (MAPPING.take 1) info mid _ hmid (by decide), hv]
        have hres := pass2_sentinel st (MAPPING.drop 2) mid final "t_outdoor" _ q h2 (by decide) rfl (by decide) hvmid
        constructor <;> intro hq
        · rw [hres, if_pos hq]
        · rw [hres, if_neg hq]
    · by_cases hn3 : name = "number_dhw_setpoint"
      · subst hn3
        rw [show MAPPING = MAPPING.take 4 ++ ("number_dhw_setpoint", ⟨.Register, "float", some 40, "temperature", true, some 0, some 65, some (1/10)⟩) :: (MAPPING.drop 5) from rfl, pass2_append] at h2
        rcases hmid : pass2 st info (MAPPING.take 4) with _ | mid
        · rw [hmid] at h2; cases h2
        · rw [hmid, Option.some_bind] at h2
          have hvmid : List.lookup "number_dhw_setpoint" mid = some (Value.vf q) := by
            rw [pass2_preserves st (MAPPING.take 4) info mid _ hmid (by decide), hv]
          have hres := pass2_sentinel st (MAPPING.drop 5) mid final "number_dhw_setpoint" _ q h2 (by decide) rfl (by decide) hvmid
          constructor <;> intro hq
          · rw [hres, if_pos hq]
          · rw [hres, if_neg hq]
      · by_cases hn4 : name = "number_dhw_dt_start"
        · subst hn4
          rw [show MAPPING = MAPPING.take 5 ++ ("number_dhw_dt_start", ⟨.Register, "float", some 41, "temperature", true, some 2, some 25, some (1/10)⟩) :: (MAPPING.drop 6) from rfl, pass2_append] at h2
          rcases hmid : pass2 st info (MAPPING.take 5) with _ | mid
          · rw [hmid] at h2; cases h2
          · rw [hmid, Option.some_bind] at h2
            have hvmid : List.lookup "number_dhw_dt_start" mid = some (Value.vf q) := by
              rw [pass2_preserves st (MAPPING.take 5) info mid _ hmid (by decide), hv]
            have hres := pass2_sentinel st (MAPPING.drop 6) mid final "number_dhw_dt_start" _ q h2 (by decide) rfl (by decide) hvmid
            constructor <;> intro hq
            · rw [hres, if_pos hq]
            · rw [hres, if_neg hq]
        · exfalso
          by_cases hn5 : name = "button_reset_alarms"
          · subst hn5
            rw [show List.lookup "button_reset_alarms" MAPPING = some ⟨.Coil, "boolean", some 83, "button", false, none, none, none⟩ from rfl] at hd
            cases hd
            exact absurd ht (by decide)
          · by_cases hn6 : name = "switch_dhw"
            · subst hn6
              rw [show List.lookup "switch_dhw" MAPPING = some ⟨.Coil, "boolean", some 213, "switch", false, none, none, none⟩ from rfl] at hd
              cases hd
              exact absurd ht (by decide)
            · by_cases hn7 : name = "alarm"
              · subst hn7
                rw [show List.lookup "alarm" MAPPING = some ⟨.Coil, "custom", none, "enum", false, none, none, none⟩ from rfl] at hd
                cases hd
                exact absurd ht (by decide)
              · have hnone : List.lookup name MAPPING = none := by
                  rw [MAPPING]
                  simp only [List.lookup_cons, beq_false_of_ne h1, beq_false_of_ne hn2,
                    beq_false_of_ne hn3, beq_false_of_ne hn4, beq_false_of_ne hn5,
                    beq_false_of_ne hn6, beq_false_of_ne hn7]
                  rfl
                rw [hnone] at hd
                cases hd

theorem hexChar_lower (d : ℕ) (hd : d < 16) : isLowerHex (hexChar d) := by
  interval_cases d <;> decide

theorem pyHexBody_lower (n : ℕ) : ∀ c ∈ pyHexBody n, isLowerHex c := by
  intro c hc
  rw [pyHexBody] at hc
  by_cases h0 : n = 0
  · rw [if_pos h0] at hc
    simp at hc
    subst hc
    decide
  · rw [if_neg h0] at hc
    obtain ⟨d, hd, rfl⟩ := List.mem_map.mp hc
    have hmem : d ∈ hexDigitsRev n := List.mem_reverse.mp hd
    rw [hexDigitsRev_eq] at hmem
    exact hexChar_lower d (Nat.digits_lt_base (by norm_num) hmem)

/-- C6, witness: under an all-inactive coil state, a device info carrying
the sentinel -999.9 on t_outdoor and -999.8 on t_dhw ends with t_outdoor
as "no value" and t_dhw unchanged. -/
theorem claim6_witness :
    List.lookup "t_outdoor" sentinelFinal = some Value.vnone ∧
    List.lookup "t_dhw" sentinelFinal = some (Value.vf (-9998 / 10)) := by
  have halarm : get_alarm (zeroCoilState DataTypes.Coil) = some 0 := by decide
  have hne1 : ¬ ((-9998 : ℚ) / 10 = -9999 / 10) := by norm_num
  have hne2 : ¬ ((0 : ℚ) = -9999 / 10) := by norm_num
  have h2 : pass2 zeroCoilState sentinelInfo MAPPING = some sentinelFinal := by
    simp [pass2, subst_temp, MAPPING, sentinelInfo, sentinelFinal, setVal, valEqRat,
      List.lookup_cons, halarm, hne1, hne2]
  exact ⟨(claim6_sentinel zeroCoilState sentinelInfo sentinelFinal "t_outdoor" _ _ h2 rfl rfl rfl).1 rfl,
         (claim6_sentinel zeroCoilState sentinelInfo sentinelFinal "t_dhw" _ _ h2 rfl rfl rfl).2 hne1⟩

/-- C7, counterexample: the encoder is not always four hex digits: for the
input -6554.0 the truncated tenfold is -65540, the single 65536 correction
leaves -4, and Python renders hex(-4)[2:] as "x4", so the padded,
truncated result is "00x4", whose third character is no hex digit. -/
theorem claim7_counterexample :
    convert_to_ecoforest_int (-6554) = "00x4" ∧
    hexDigitVal 'x' = none ∧
    ("00x4" : String).length = 4 := by
  refine ⟨?_, by decide, by decide⟩
  rw [show ((-6554 : ℚ)) = (((-65540 : ℤ) : ℚ)) / 10 from by norm_num, convert_tenths]
  decide

/-- C7, amended: whenever the truncated tenfold value is at least -65536
(so that the negative correction applied once actually lands in
[0, 65536)), the encoder output is exactly four characters, each a
lowercase hex digit; values above 0xffff are silently truncated to their
low four hex digits by the [-4:] slice. -/
theorem claim7_output (value : ℚ) (h : -65536 ≤ ratTrunc (value * 10)) :
    (convert_to_ecoforest_int value).length = 4 ∧
    ∀ c ∈ (convert_to_ecoforest_int value).data, isLowerHex c := by
  have hconv : convert_to_ecoforest_int value =
      String.mk (lastN 4 (['0', '0', '0', '0'] ++
        pyHexDrop2 (if ratTrunc (value * 10) < 0 then ratTrunc (value * 10) + 65536
                    else ratTrunc (value * 10)))) := rfl
  rw [hconv]
  set v : ℤ := ratTrunc (value * 10) with hv
  set v2 : ℤ := if v < 0 then v + 65536 else v with hv2
  have hnn : 0 ≤ v2 := by rw [hv2]; split <;> omega
  have hdrop : pyHexDrop2 v2 = pyHexBody v2.natAbs := by
    rw [pyHexDrop2, if_neg (not_lt.mpr hnn)]
  rw [hdrop]
  constructor
  · show (lastN 4 (['0', '0', '0', '0'] ++ pyHexBody v2.natAbs)).length = 4
    rw [lastN, List.length_drop, List.length_append]
    simp
  · intro c hc
    have hc2 : c ∈ ['0', '0', '0', '0'] ++ pyHexBody v2.natAbs :=
      List.drop_subset _ _ hc
    rcases List.mem_append.mp hc2 with hz | hb
    · have : c = '0' := by simpa using hz
      subst this
      decide
    · exact pyHexBody_lower _ c hb

/-- C7, witness: the encoder output for 0 has length four. -/
theorem claim7_witness : (convert_to_ecoforest_int 0).length = 4 :=
  (claim7_output 0 (by
    rw [show ((0 : ℚ) * 10) = (((0 : ℤ) : ℚ)) from by norm_num, ratTrunc_intCast]
    decide)).1

/-- C8, counterexample: a decoded model index outside [0, 36] is not
always a fault: register 5323 decoding to -1 ("ffff") indexes the alphabet
from its end per Python negative indexing, and the decoder happily returns
"Z00000" instead of raising. -/
theorem claim8_counterexample :
    parse_ecoforest_int "ffff" = some (-1) ∧
    ((-1 : ℤ) < 0) ∧
    parse_model_name modelNegIndexState = some "Z00000" := by
  refine ⟨by decide, by decide, by decide⟩

/-- C8, amended: when every model register is present and parses, the
decoder returns a model string exactly when every decoded index lies in
[-37, 36]: indices in [-37, -1] wrap around from the end of the 37-symbol
alphabet (Python negative indexing), and only indices outside [-37, 36]
raise the unhandled IndexError. -/
theorem claim8_model_bounds (st : DataTypes → ℕ → Option String)
    (h : ∀ a ∈ model_addresses, ∃ s v, st DataTypes.Register a = some s ∧
      parse_ecoforest_int s = some v) :
    ((parse_model_name st).isSome ↔
      ∀ a ∈ model_addresses, ∀ s v, st DataTypes.Register a = some s →
        parse_ecoforest_int s = some v → (-37 ≤ v ∧ v ≤ 36)) := by
  rw [parse_model_name, parse_model_go_isSome st model_addresses "" h]
  have hlen : ((model_dictionary.length : ℕ) : ℤ) = 37 := by decide
  constructor
  · intro hA b hb s v hs hv
    have h2 := (pyIndex_isSome model_dictionary v).mp (hA b hb s v hs hv)
    rw [hlen] at h2
    omega
  · intro hB b hb s v hs hv
    rw [pyIndex_isSome, hlen]
    have := hB b hb s v hs hv
    omega

/-- C8, witness: the all-zero block has all indices in range, so the
decoder returns a string. -/
theorem claim8_witness : (parse_model_name allZeroState).isSome = true :=
  (claim8_model_bounds allZeroState (fun _ _ => ⟨"0000", 0, rfl, by decide⟩)).mpr
    (by
      intro a ha s v hs hv
      cases hs
      rw [show parse_ecoforest_int "0000" = some 0 from by decide] at hv
      cases hv
      decide)

/-- C9: every mapped field address lies inside the union of the curated
read ranges for its data type, and every alarm-table coil address lies
inside the coil read ranges, so one poll resolves every mapped address. -/
theorem claim9_coverage :
    (∀ p ∈ MAPPING, addrCovered p.2) ∧
    (∀ a ∈ alarm_registers, inRequests DataTypes.Coil a) := by decide

/-- C9, witness: the coverage check at the concrete field t_dhw. -/
theorem claim9_witness :
    addrCovered ⟨DataTypes.Register, "float", some 11, "temperature", false, none, none, none⟩ :=
  claim9_coverage.1 ("t_dhw", ⟨DataTypes.Register, "float", some 11, "temperature", false, none, none, none⟩)
    (by decide)

/-- C10: the name "alarm" is a mapping key (so it passes the unknown-name
guard of both write entry points) but its definition has no address, and
both entry points then fail on the missing "address" key, not with the
unknown-field error. -/
theorem claim10_custom_field_write :
    (List.lookup "alarm" MAPPING).isSome = true ∧
    turn_switch_plan "alarm" true = .error .missingAddressKey ∧
    turn_switch_plan "alarm" true ≠ .error .unknownField ∧
    set_numeric_value_plan "alarm" 0 = .error .missingAddressKey ∧
    set_numeric_value_plan "alarm" 0 ≠ .error .unknownField := by
  refine ⟨by decide, by decide, by decide, by decide, by decide⟩
